import Mathlib

/-!
Verification of the ask_ai library (src/config.rs, src/error.rs, src/ask_ai.rs).

The library assembles a chat-message list from an optional system prompt, an
optional conversation history and a new prompt, and sends it to one of three
providers (OpenAI, Anthropic, Ollama).  The shallow embedding below translates
the data model and the three adapter functions directly from the Rust source.
Environment-variable reads, SDK model-name parsing and the network call are
modelled as explicit oracle parameters; a Rust panic (out-of-bounds index or
Option unwrap) is a distinct outcome of the adapter.
-/

namespace AskAi

/-- config.rs: enum Framework of LLM providers. -/
inductive Framework where
  | OpenAI
  | Anthropic
  | Ollama
deriving DecidableEq, Repr

/-- config.rs: Display for Framework. -/
def Framework.display : Framework → String
  | .OpenAI => "openai"
  | .Anthropic => "anthropic"
  | .Ollama => "ollama"

/-- config.rs: struct AiConfig (model is a String, max_token an Option of u32;
no arithmetic is ever performed on max_token, so Nat is a faithful carrier). -/
structure AiConfig where
  llm : Framework
  model : String
  max_token : Option Nat
deriving DecidableEq, Repr

/-- config.rs: struct AiPrompt — one completed exchange of the history. -/
structure AiPrompt where
  content : String
  output : String
deriving DecidableEq, Repr

/-- config.rs: struct Question. -/
structure Question where
  system_prompt : Option String
  messages : Option (List AiPrompt)
  new_prompt : String
deriving DecidableEq, Repr

/-- error.rs: enum AppError. -/
inductive AppError where
  | ModelError (model_name : String) (failure_str : String)
  | ApiError (model_name : Framework) (failure_str : String)
  | UnexpectedError (msg : String)
deriving DecidableEq, Repr

/-- Outcome of running one adapter call: a successful answer, a returned
AppError, or a Rust panic (index out of bounds / unwrap on None). -/
inductive RustOutcome (α : Type) where
  | ok (a : α)
  | err (e : AppError)
  | panic
deriving DecidableEq, Repr

/-- ask_ai.rs: the default system-prompt string pushed by every adapter when
question.system_prompt is None (lines 67, 187, 311 of ask_ai.rs). -/
def defaultSysPrompt : String := "You are helpful assistant. Answer the question consicely."

namespace Ollama

/-- ollama_rs MessageRole as used by get_ollama_response. -/
inductive MessageRole where
  | system
  | user
  | assistant
deriving DecidableEq, Repr

/-- ollama_rs ChatMessage.  The source always passes tool_calls: vec![] and
images: None, so Unit carriers suffice for those fields. -/
structure ChatMessage where
  role : MessageRole
  content : String
  tool_calls : List Unit
  images : Option Unit
deriving DecidableEq, Repr

/-- ollama_rs ChatMessageRequest::new(model, msgs). -/
structure ChatMessageRequest where
  model_name : String
  messages : List ChatMessage
deriving DecidableEq, Repr

/-- ollama_rs chat response: only the message field is read by the source. -/
structure ChatResponse where
  message : ChatMessage
deriving DecidableEq, Repr

end Ollama

/-- ask_ai.rs lines 59-74: the system entry pushed first by get_ollama_response. -/
def ollamaSystemMsg (question : Question) : Ollama.ChatMessage :=
  match question.system_prompt with
  | some s => ⟨.system, s, [], none⟩
  | none => ⟨.system, defaultSysPrompt, [], none⟩

/-- ask_ai.rs lines 77-95: the entries pushed for one history turn by
get_ollama_response (user half if non-empty, then assistant half if non-empty). -/
def ollamaTurnMsgs (msg : AiPrompt) : List Ollama.ChatMessage :=
  (if !msg.content.isEmpty then [⟨.user, msg.content, [], none⟩] else [])
    ++ (if !msg.output.isEmpty then [⟨.assistant, msg.output, [], none⟩] else [])

/-- ask_ai.rs lines 76-96: the history loop of get_ollama_response. -/
def ollamaHistoryMsgs (messages : Option (List AiPrompt)) : List Ollama.ChatMessage :=
  match messages with
  | some msgs => msgs.flatMap ollamaTurnMsgs
  | none => []

/-- ask_ai.rs lines 98-112: the final user entry pushed by get_ollama_response. -/
def ollamaFinalMsg (question : Question) : Ollama.ChatMessage :=
  if question.new_prompt.isEmpty then ⟨.user, ".", [], none⟩
  else ⟨.user, question.new_prompt, [], none⟩

/-- ask_ai.rs lines 57-112: the full message list built by get_ollama_response. -/
def ollamaMsgs (question : Question) : List Ollama.ChatMessage :=
  [ollamaSystemMsg question] ++ ollamaHistoryMsgs question.messages
    ++ [ollamaFinalMsg question]

/-- ask_ai.rs lines 53-131: get_ollama_response.  The delegated network call
(ollama.send_chat_messages_with_history) is the oracle parameter; its failure
string is what e.to_string() yields in the source. -/
def get_ollama_response
    (send : Ollama.ChatMessageRequest → Except String Ollama.ChatResponse)
    (question : Question) (ai_config : AiConfig) : RustOutcome String :=
  let msgs := ollamaMsgs question
  let req : Ollama.ChatMessageRequest := ⟨ai_config.model, msgs⟩
  match send req with
  | .error e => .err (.ModelError ai_config.model e)
  | .ok result => .ok result.message.content

namespace OpenAI

/-- openai_api_rs chat_completion::MessageRole. -/
inductive MessageRole where
  | system
  | user
  | assistant
deriving DecidableEq, Repr

/-- openai_api_rs chat_completion::Content (only the Text variant is used). -/
inductive Content where
  | Text (s : String)
deriving DecidableEq, Repr

/-- openai_api_rs ChatCompletionMessage.  The source always passes name: None,
tool_calls: None, tool_call_id: None. -/
structure ChatCompletionMessage where
  role : MessageRole
  content : Content
  name : Option String
  tool_calls : Option Unit
  tool_call_id : Option String
deriving DecidableEq, Repr

/-- openai_api_rs ChatCompletionRequest::new(model, msgs). -/
structure ChatCompletionRequest where
  model : String
  messages : List ChatCompletionMessage
deriving DecidableEq, Repr

/-- openai_api_rs response: the source reads choices[0].message.content,
where content is an Option. -/
structure ChoiceMessage where
  content : Option String
deriving DecidableEq, Repr

structure Choice where
  message : ChoiceMessage
deriving DecidableEq, Repr

structure ChatCompletionResult where
  choices : List Choice
deriving DecidableEq, Repr

end OpenAI

/-- ask_ai.rs lines 302-319: the system entry pushed first by get_openai_response. -/
def openaiSystemMsg (question : Question) : OpenAI.ChatCompletionMessage :=
  match question.system_prompt with
  | some s => ⟨.system, .Text s, none, none, none⟩
  | none => ⟨.system, .Text defaultSysPrompt, none, none, none⟩

/-- ask_ai.rs lines 322-343: the entries pushed for one history turn by
get_openai_response. -/
def openaiTurnMsgs (msg : AiPrompt) : List OpenAI.ChatCompletionMessage :=
  (if !msg.content.isEmpty then [⟨.user, .Text msg.content, none, none, none⟩] else [])
    ++ (if !msg.output.isEmpty then [⟨.assistant, .Text msg.output, none, none, none⟩] else [])

/-- ask_ai.rs lines 321-344: the history loop of get_openai_response. -/
def openaiHistoryMsgs (messages : Option (List AiPrompt)) : List OpenAI.ChatCompletionMessage :=
  match messages with
  | some msgs => msgs.flatMap openaiTurnMsgs
  | none => []

/-- ask_ai.rs lines 346-358: the final user entry pushed by get_openai_response. -/
def openaiFinalMsg (question : Question) : OpenAI.ChatCompletionMessage :=
  if question.new_prompt.isEmpty then ⟨.user, .Text ".", none, none, none⟩
  else ⟨.user, .Text question.new_prompt, none, none, none⟩

/-- ask_ai.rs lines 301-358: the full message list built by get_openai_response. -/
def openaiMsgs (question : Question) : List OpenAI.ChatCompletionMessage :=
  [openaiSystemMsg question] ++ openaiHistoryMsgs question.messages
    ++ [openaiFinalMsg question]

/-- ask_ai.rs lines 285-372: get_openai_response.  env models env::var (Err
carries e.to_string()); chat_completion models the SDK call, whose failure
string covers every transport or HTTP-status failure.  The final extraction
result.choices[0].message.content.unwrap() panics when choices is empty or
content is None. -/
def get_openai_response
    (env : String → Except String String)
    (chat_completion : OpenAI.ChatCompletionRequest → Except String OpenAI.ChatCompletionResult)
    (question : Question) (ai_config : AiConfig) : RustOutcome String :=
  match env "OPENAI_API_KEY" with
  | .error e => .err (.ApiError ai_config.llm e)
  | .ok _api_key =>
    let req : OpenAI.ChatCompletionRequest := ⟨ai_config.model, openaiMsgs question⟩
    match chat_completion req with
    | .error e => .err (.ModelError ai_config.model e)
    | .ok result =>
      match result.choices.head? with
      | none => .panic
      | some choice =>
        match choice.message.content with
        | none => .panic
        | some answer => .ok answer

namespace Anthropic

/-- anthropic_rs ContentType (only Text is used). -/
inductive ContentType where
  | Text
deriving DecidableEq, Repr

/-- anthropic_rs Content block. -/
structure Content where
  content_type : ContentType
  text : String
deriving DecidableEq, Repr

/-- anthropic_rs Role. -/
inductive Role where
  | User
  | Assistant
deriving DecidableEq, Repr

/-- anthropic_rs Message: role plus a list of content blocks. -/
structure Message where
  role : Role
  content : List Content
deriving DecidableEq, Repr

/-- anthropic_rs SystemPrompt (cache_control is always None in the source). -/
structure SystemPrompt where
  text : String
  content_type : ContentType
  cache_control : Option Unit
deriving DecidableEq, Repr

/-- anthropic_rs System: structured block or bare text. -/
inductive System where
  | Structured (sp : SystemPrompt)
  | Text (s : String)
deriving DecidableEq, Repr

/-- anthropic_rs ClaudeModel: an opaque parsed model identifier; which strings
parse is decided by the anthropic_rs crate, so parsing is an oracle parameter
of the adapter. -/
structure ClaudeModel where
  model_id : String
deriving DecidableEq, Repr

/-- anthropic_rs MessageRequest as built by the source (remaining fields come
from ..Default::default() and are never read back). -/
structure MessageRequest where
  model : ClaudeModel
  max_tokens : Nat
  messages : List Message
  system : Option System
deriving DecidableEq, Repr

/-- anthropic_rs response: the source reads only content. -/
structure MessageResponse where
  content : List Content
deriving DecidableEq, Repr

end Anthropic

/-- The text carried by an anthropic System value, whichever variant. -/
def anthropicSystemText : Anthropic.System → String
  | .Structured sp => sp.text
  | .Text s => s

/-- ask_ai.rs lines 178-188: the system prompt of get_anthropic_response:
Structured block for a caller-supplied prompt, bare Text default otherwise. -/
def anthropicSystem (question : Question) : Anthropic.System :=
  match question.system_prompt with
  | some s => .Structured ⟨s, .Text, none⟩
  | none => .Text defaultSysPrompt

/-- ask_ai.rs lines 193-213: the entries pushed for one history turn by
get_anthropic_response. -/
def anthropicTurnMsgs (msg : AiPrompt) : List Anthropic.Message :=
  (if !msg.content.isEmpty then [⟨.User, [⟨.Text, msg.content⟩]⟩] else [])
    ++ (if !msg.output.isEmpty then [⟨.Assistant, [⟨.Text, msg.output⟩]⟩] else [])

/-- ask_ai.rs lines 192-214: the history loop of get_anthropic_response. -/
def anthropicHistoryMsgs (messages : Option (List AiPrompt)) : List Anthropic.Message :=
  match messages with
  | some msgs => msgs.flatMap anthropicTurnMsgs
  | none => []

/-- ask_ai.rs lines 216-228: the final user message of get_anthropic_response. -/
def anthropicFinalMsg (question : Question) : Anthropic.Message :=
  if question.new_prompt.isEmpty then ⟨.User, [⟨.Text, "."⟩]⟩
  else ⟨.User, [⟨.Text, question.new_prompt⟩]⟩

/-- ask_ai.rs lines 191-228: the full message list built by get_anthropic_response. -/
def anthropicMsgs (question : Question) : List Anthropic.Message :=
  anthropicHistoryMsgs question.messages ++ [anthropicFinalMsg question]

/-- ask_ai.rs lines 230-243: the MessageRequest built by get_anthropic_response
(max_tokens defaults to 1024, system is always Some). -/
def anthropicRequest (claude_model : Anthropic.ClaudeModel) (question : Question)
    (ai_config : AiConfig) : Anthropic.MessageRequest :=
  ⟨claude_model,
    (match ai_config.max_token with | some t => t | none => 1024),
    anthropicMsgs question,
    some (anthropicSystem question)⟩

/-- ask_ai.rs lines 160-256: get_anthropic_response.  env models
std::env::var, claude_from_str models ClaudeModel::from_str of the SDK,
create_message models the network call.  The final extraction
result.content[0].text panics when content is empty. -/
def get_anthropic_response
    (env : String → Except String String)
    (claude_from_str : String → Except String Anthropic.ClaudeModel)
    (create_message : Anthropic.MessageRequest → Except String Anthropic.MessageResponse)
    (question : Question) (ai_config : AiConfig) : RustOutcome String :=
  match env "ANTHROPIC_API_KEY" with
  | .error e => .err (.ApiError ai_config.llm e)
  | .ok _api_key =>
    match claude_from_str ai_config.model with
    | .error e => .err (.ModelError ai_config.model e)
    | .ok claude_model =>
      let message := anthropicRequest claude_model question ai_config
      match create_message message with
      | .error e => .err (.ModelError ai_config.model e)
      | .ok result =>
        match result.content.head? with
        | none => .panic
        | some c => .ok c.text

/-! ### Shared helper lemmas -/

/-- The entries an Ollama history turn contributes, phrased by emptiness cases. -/
theorem ollamaTurn_eq (t : AiPrompt) :
    ollamaTurnMsgs t
      = (if t.content.isEmpty then [] else [⟨Ollama.MessageRole.user, t.content, [], none⟩])
        ++ (if t.output.isEmpty then [] else [⟨Ollama.MessageRole.assistant, t.output, [], none⟩]) := by
  unfold ollamaTurnMsgs
  cases hc : t.content.isEmpty <;> cases ho : t.output.isEmpty <;> simp [hc, ho]

/-- The entries an OpenAI history turn contributes, phrased by emptiness cases. -/
theorem openaiTurn_eq (t : AiPrompt) :
    openaiTurnMsgs t
      = (if t.content.isEmpty then []
          else [⟨OpenAI.MessageRole.user, .Text t.content, none, none, none⟩])
        ++ (if t.output.isEmpty then []
          else [⟨OpenAI.MessageRole.assistant, .Text t.output, none, none, none⟩]) := by
  unfold openaiTurnMsgs
  cases hc : t.content.isEmpty <;> cases ho : t.output.isEmpty <;> simp [hc, ho]

/-! ### Claim theorems -/

/-- C1: for every request, each adapter's assembled message list is exactly
the system entry, followed by the history turns in original order with each
turn's user text before its assistant text, followed by one final user entry
for the new prompt; nothing is reordered, deduplicated or truncated and no
history-length bound is applied (the middle segment is the order-preserving
concatenation over the entire history). -/
theorem C1_message_ordering (q : Question) :
    ollamaMsgs q =
      [ollamaSystemMsg q]
        ++ (q.messages.getD []).flatMap (fun t =>
            (if t.content.isEmpty then [] else [⟨Ollama.MessageRole.user, t.content, [], none⟩])
              ++ (if t.output.isEmpty then []
                else [⟨Ollama.MessageRole.assistant, t.output, [], none⟩]))
        ++ [⟨Ollama.MessageRole.user, if q.new_prompt.isEmpty then "." else q.new_prompt, [], none⟩]
    ∧ openaiMsgs q =
      [openaiSystemMsg q]
        ++ (q.messages.getD []).flatMap (fun t =>
            (if t.content.isEmpty then []
              else [⟨OpenAI.MessageRole.user, .Text t.content, none, none, none⟩])
              ++ (if t.output.isEmpty then []
                else [⟨OpenAI.MessageRole.assistant, .Text t.output, none, none, none⟩]))
        ++ [⟨OpenAI.MessageRole.user,
              .Text (if q.new_prompt.isEmpty then "." else q.new_prompt), none, none, none⟩] := by
  constructor
  · unfold ollamaMsgs ollamaHistoryMsgs ollamaFinalMsg
    cases hm : q.messages <;> cases hn : q.new_prompt.isEmpty <;>
      simp [hm, hn, funext ollamaTurn_eq]
  · unfold openaiMsgs openaiHistoryMsgs openaiFinalMsg
    cases hm : q.messages <;> cases hn : q.new_prompt.isEmpty <;>
      simp [hm, hn, funext openaiTurn_eq]

/-- C2: the claim says a non-2xx HTTP response (e.g. 401) yields an
Api-category error containing the status.  In the source (ask_ai.rs lines
363-368) every failure of the SDK chat_completion call — which is where a
non-2xx status surfaces — is wrapped into AppError::ModelError carrying the
configured model name, never into AppError::ApiError.  Evaluated here at the
401 scenario of the repository test openai_reqwest_httpmock_error. -/
theorem C2_openai_401_yields_model_error :
    get_openai_response (fun _ => .ok "bad_api_key")
      (fun _ => .error "Status 401 Unauthorized")
      ⟨none, none, "bad"⟩ ⟨.OpenAI, "gpt-3.5-turbo", some 1000⟩
      = .err (.ModelError "gpt-3.5-turbo" "Status 401 Unauthorized") := rfl

/-- C3 counterexample: with system_prompt absent the Ollama adapter's system
entry is the fixed default persona string, not the empty string the claim
requires. -/
theorem C3_counterexample :
    ((ollamaMsgs ⟨none, none, "What is Rust?"⟩).head?.map Ollama.ChatMessage.content
        = some "You are helpful assistant. Answer the question consicely.")
    ∧ ((ollamaMsgs ⟨none, none, "What is Rust?"⟩).head?.map Ollama.ChatMessage.content
        ≠ some "") := by
  constructor
  · rfl
  · decide

/-- C3 amended: when system_prompt is absent each adapter emits the fixed
default persona string "You are helpful assistant. Answer the question
consicely." as its system entry (Ollama and OpenAI as the first message,
Anthropic as the bare-text system field); when system_prompt is present the
caller's text is used verbatim. -/
theorem C3_amended_default_persona (q : Question) :
    (ollamaSystemMsg q).content = q.system_prompt.getD defaultSysPrompt
    ∧ (openaiSystemMsg q).content = .Text (q.system_prompt.getD defaultSysPrompt)
    ∧ anthropicSystemText (anthropicSystem q) = q.system_prompt.getD defaultSysPrompt
    ∧ (ollamaMsgs q).head? = some (ollamaSystemMsg q)
    ∧ (openaiMsgs q).head? = some (openaiSystemMsg q) := by
  refine ⟨?_, ?_, ?_, ?_, ?_⟩ <;>
    cases hs : q.system_prompt <;>
      simp [hs, ollamaSystemMsg, openaiSystemMsg, anthropicSystem, anthropicSystemText,
        ollamaMsgs, openaiMsgs]

/-- C4: the claim says a 2xx response with body content = [] yields a
Model-category error containing "failed to extract content" without crashing.
In the source (ask_ai.rs line 253) the extraction result.content[0].text is an
unchecked index: when the SDK call succeeds with an empty content list, the
call panics.  Evaluated at the scenario of the repository test
anthropic_reqwest_httpmock_error_model_parse. -/
theorem C4_empty_content_panics :
    get_anthropic_response (fun _ => .ok "badkey")
      (fun s => .ok ⟨s⟩)
      (fun _ => .ok ⟨[]⟩)
      ⟨none, none, "blah"⟩ ⟨.Anthropic, "claude-2", some 80⟩
      = RustOutcome.panic := rfl

/-- C5: in every adapter the final emitted user entry carries "." when
new_prompt is empty and new_prompt unchanged otherwise, and that final content
is never the empty string. -/
theorem C5_placeholder_final_entry (q : Question) :
    (ollamaMsgs q).getLast?
      = some ⟨.user, if q.new_prompt.isEmpty then "." else q.new_prompt, [], none⟩
    ∧ (openaiMsgs q).getLast?
      = some ⟨.user, .Text (if q.new_prompt.isEmpty then "." else q.new_prompt),
          none, none, none⟩
    ∧ (anthropicMsgs q).getLast?
      = some ⟨.User, [⟨.Text, if q.new_prompt.isEmpty then "." else q.new_prompt⟩]⟩
    ∧ (if q.new_prompt.isEmpty then "." else q.new_prompt) ≠ "" := by
  refine ⟨?_, ?_, ?_, ?_⟩
  · unfold ollamaMsgs
    rw [List.getLast?_concat]
    unfold ollamaFinalMsg
    cases hn : q.new_prompt.isEmpty <;> simp [hn]
  · unfold openaiMsgs
    rw [List.getLast?_concat]
    unfold openaiFinalMsg
    cases hn : q.new_prompt.isEmpty <;> simp [hn]
  · unfold anthropicMsgs
    rw [List.getLast?_concat]
    unfold anthropicFinalMsg
    cases hn : q.new_prompt.isEmpty <;> simp [hn]
  · cases hn : q.new_prompt.isEmpty
    · simp only [hn, Bool.false_eq_true, if_false]
      intro hq
      rw [hq] at hn
      exact absurd hn (by decide)
    · simp only [hn, if_true]
      decide

/-- C6: for one history turn, the Ollama and OpenAI adapters emit the user
entry (iff user text is non-empty) followed by the assistant entry (iff
assistant text is non-empty): two entries with user before assistant when both
halves are non-empty, one when exactly one is, zero when both are empty, and
empty halves are never emitted as empty-content entries. -/
theorem C6_turn_entry_shape (t : AiPrompt) :
    ollamaTurnMsgs t
      = (if t.content.isEmpty then [] else [⟨Ollama.MessageRole.user, t.content, [], none⟩])
        ++ (if t.output.isEmpty then []
          else [⟨Ollama.MessageRole.assistant, t.output, [], none⟩])
    ∧ openaiTurnMsgs t
      = (if t.content.isEmpty then []
          else [⟨OpenAI.MessageRole.user, .Text t.content, none, none, none⟩])
        ++ (if t.output.isEmpty then []
          else [⟨OpenAI.MessageRole.assistant, .Text t.output, none, none, none⟩])
    ∧ (ollamaTurnMsgs t).length
      = (if t.content.isEmpty then 0 else 1) + (if t.output.isEmpty then 0 else 1)
    ∧ (openaiTurnMsgs t).length
      = (if t.content.isEmpty then 0 else 1) + (if t.output.isEmpty then 0 else 1) := by
  refine ⟨ollamaTurn_eq t, openaiTurn_eq t, ?_, ?_⟩ <;>
    cases hc : t.content.isEmpty <;> cases ho : t.output.isEmpty <;>
      simp [ollamaTurnMsgs, openaiTurnMsgs, hc, ho]

/-- C7: with no history and a non-empty new prompt, Ollama and OpenAI build
exactly the two entries [system entry, user entry with the new prompt], and
the Anthropic request carries exactly one user message with the new prompt
plus its always-present separate system field — two entries in total. -/
theorem C7_no_history_two_entries (q : Question) (claude_model : Anthropic.ClaudeModel)
    (cfg : AiConfig)
    (h1 : q.messages = none) (h2 : q.new_prompt.isEmpty = false) :
    ollamaMsgs q
      = [ollamaSystemMsg q, ⟨.user, q.new_prompt, [], none⟩]
    ∧ openaiMsgs q
      = [openaiSystemMsg q, ⟨.user, .Text q.new_prompt, none, none, none⟩]
    ∧ (anthropicRequest claude_model q cfg).messages
      = [⟨.User, [⟨.Text, q.new_prompt⟩]⟩]
    ∧ (anthropicRequest claude_model q cfg).system = some (anthropicSystem q) := by
  refine ⟨?_, ?_, ?_, rfl⟩ <;>
    simp [ollamaMsgs, openaiMsgs, anthropicRequest, anthropicMsgs,
      ollamaHistoryMsgs, openaiHistoryMsgs, anthropicHistoryMsgs,
      ollamaFinalMsg, openaiFinalMsg, anthropicFinalMsg, h1, h2]

/-- C7 witness at a concrete no-history request. -/
theorem C7_no_history_two_entries_witness :
    ollamaMsgs ⟨none, none, "What is Rust?"⟩
      = [ollamaSystemMsg ⟨none, none, "What is Rust?"⟩,
          ⟨.user, "What is Rust?", [], none⟩]
    ∧ openaiMsgs ⟨none, none, "What is Rust?"⟩
      = [openaiSystemMsg ⟨none, none, "What is Rust?"⟩,
          ⟨.user, .Text "What is Rust?", none, none, none⟩]
    ∧ (anthropicRequest ⟨"claude-2"⟩ ⟨none, none, "What is Rust?"⟩
          ⟨.Anthropic, "claude-2", some 80⟩).messages
      = [⟨.User, [⟨.Text, "What is Rust?"⟩]⟩]
    ∧ (anthropicRequest ⟨"claude-2"⟩ ⟨none, none, "What is Rust?"⟩
          ⟨.Anthropic, "claude-2", some 80⟩).system
      = some (anthropicSystem ⟨none, none, "What is Rust?"⟩) :=
  C7_no_history_two_entries ⟨none, none, "What is Rust?"⟩ ⟨"claude-2"⟩
    ⟨.Anthropic, "claude-2", some 80⟩ rfl (by decide)

/-- C8: for both remote adapters, when the credential environment variable
read fails, the call returns an Api-category error carrying the configured
provider and the read-failure text — for every network oracle, i.e. before
any network request is made. -/
theorem C8_missing_credential_api_error
    (env1 env2 : String → Except String String)
    (chat_completion : OpenAI.ChatCompletionRequest → Except String OpenAI.ChatCompletionResult)
    (claude_from_str : String → Except String Anthropic.ClaudeModel)
    (create_message : Anthropic.MessageRequest → Except String Anthropic.MessageResponse)
    (q1 q2 : Question) (cfg1 cfg2 : AiConfig) (e1 e2 : String)
    (h1 : env1 "OPENAI_API_KEY" = .error e1)
    (h2 : env2 "ANTHROPIC_API_KEY" = .error e2) :
    get_openai_response env1 chat_completion q1 cfg1 = .err (.ApiError cfg1.llm e1)
    ∧ get_anthropic_response env2 claude_from_str create_message q2 cfg2
      = .err (.ApiError cfg2.llm e2) := by
  constructor
  · unfold get_openai_response
    rw [h1]
  · unfold get_anthropic_response
    rw [h2]

/-- C8 witness at concrete missing-credential environments. -/
theorem C8_missing_credential_api_error_witness :
    get_openai_response (fun _ => .error "environment variable not found")
      (fun _ => .ok ⟨[]⟩) ⟨none, none, "hi"⟩ ⟨.OpenAI, "gpt-4", none⟩
      = .err (.ApiError Framework.OpenAI "environment variable not found")
    ∧ get_anthropic_response (fun _ => .error "environment variable not found")
      (fun s => .ok ⟨s⟩) (fun _ => .ok ⟨[]⟩) ⟨none, none, "hi"⟩
      ⟨.Anthropic, "claude-2", none⟩
      = .err (.ApiError Framework.Anthropic "environment variable not found") := by
  refine C8_missing_credential_api_error _ _ _ _ _ _ _ _ _ _ _ ?_ ?_ <;> rfl

/-- C9: every error returned by the Ollama adapter is a Model-category error
carrying the configured model name and the stringified failure of the
delegated call; no Api-category error can be produced. -/
theorem C9_ollama_errors_model_category
    (send : Ollama.ChatMessageRequest → Except String Ollama.ChatResponse)
    (q : Question) (cfg : AiConfig) (e : AppError)
    (h : get_ollama_response send q cfg = .err e) :
    ∃ failure_str, send ⟨cfg.model, ollamaMsgs q⟩ = .error failure_str
      ∧ e = .ModelError cfg.model failure_str := by
  simp only [get_ollama_response] at h
  cases hs : send ⟨cfg.model, ollamaMsgs q⟩ with
  | error f =>
    rw [hs] at h
    simp only [] at h
    refine ⟨f, rfl, ?_⟩
    cases h
    rfl
  | ok r =>
    rw [hs] at h
    simp at h

/-- C9 witness at a concrete failing delegated call. -/
theorem C9_ollama_errors_model_category_witness :
    ∃ failure_str,
      (Except.error "connection refused" : Except String Ollama.ChatResponse)
        = .error failure_str
      ∧ AppError.ModelError "llama2" "connection refused"
        = .ModelError "llama2" failure_str :=
  C9_ollama_errors_model_category (fun _ => .error "connection refused")
    ⟨none, none, "hi"⟩ ⟨.Ollama, "llama2", none⟩
    (.ModelError "llama2" "connection refused") rfl

/-- C10: when the credential is readable but the configured model string does
not parse as a Claude model, the Anthropic adapter returns a Model-category
error with the configured model name and the parse failure text — for every
network oracle and every question, i.e. before any message assembly is used
and before any network request. -/
theorem C10_unrecognized_model_prevalidation
    (env : String → Except String String)
    (claude_from_str : String → Except String Anthropic.ClaudeModel)
    (create_message : Anthropic.MessageRequest → Except String Anthropic.MessageResponse)
    (q : Question) (cfg : AiConfig) (key e : String)
    (henv : env "ANTHROPIC_API_KEY" = .ok key)
    (hparse : claude_from_str cfg.model = .error e) :
    get_anthropic_response env claude_from_str create_message q cfg
      = .err (.ModelError cfg.model e) := by
  unfold get_anthropic_response
  rw [henv, hparse]

/-- C10 witness at a concrete unrecognized model name. -/
theorem C10_unrecognized_model_prevalidation_witness :
    get_anthropic_response (fun _ => .ok "anthropic_testkey")
      (fun _ => .error "invalid claude model")
      (fun _ => .ok ⟨[⟨.Text, "hi"⟩]⟩)
      ⟨none, none, "Does this model exist?"⟩
      ⟨.Anthropic, "claude-nonexistent-model", some 256⟩
      = .err (.ModelError "claude-nonexistent-model" "invalid claude model") :=
  C10_unrecognized_model_prevalidation _ _ _ _ _ "anthropic_testkey"
    "invalid claude model" rfl rfl

end AskAi
